import Mathlib

/-!
# TP0_Redes UDP token client — shallow embedding

Shallow embedding of the message codec in `src/TP0_Redes/main.py`:
Python strings are lists of Unicode code points (`PyStr`), Python `bytes`
are lists of byte values (`Bytes`), and Python exceptions raised on the
embedded code paths are an explicit `PyErr` error type threaded through
`Except`.  The networking glue (`send_message`, `main`) is out of scope:
the claims are about the pure encode/decode functions.
-/

deriving instance DecidableEq for Except

set_option maxRecDepth 8192

namespace TP0

/-- Python exception kinds that the embedded code paths can raise. -/
inductive PyErr where
  | valueError
  | structError
  | unicodeEncodeError
  | unicodeDecodeError
  | keyError
  | indexError
deriving DecidableEq, Repr

/-- A Python `str`: a sequence of Unicode code points. -/
abbrev PyStr := List Nat

/-- A Python `bytes` value: a sequence of byte values. -/
abbrev Bytes := List Nat

/-- Code points of a Lean string literal, for readable concrete inputs. -/
def pyOfString (s : String) : PyStr :=
  s.toList.map Char.toNat

/-- Python `s.ljust(width, fill)`: right-pad with `fill` up to `width`;
strings already at least `width` long are returned unchanged. -/
def ljust (s : PyStr) (width : Nat) (fill : Nat) : PyStr :=
  s ++ List.replicate (width - s.length) fill

/-- Python slice `b[lo:hi]` for nonnegative bounds (out-of-range clamps). -/
def pySlice (b : Bytes) (lo hi : Nat) : Bytes :=
  (b.take hi).drop lo

/-- Python slice `b[lo:]` for a nonnegative bound (out-of-range clamps). -/
def pySliceFrom (b : Bytes) (lo : Nat) : Bytes :=
  b.drop lo

/-- Python `s.encode("ascii")`: identity on the code points when all are
below 128, otherwise `UnicodeEncodeError`. -/
def pyEncodeAscii (s : PyStr) : Except PyErr Bytes :=
  if s.all (fun c => c < 128) then .ok s else .error .unicodeEncodeError

/-- Python `b.decode("ascii")`: identity on the byte values when all are
below 128, otherwise `UnicodeDecodeError`. -/
def pyDecodeAscii (b : Bytes) : Except PyErr PyStr :=
  if b.all (fun c => c < 128) then .ok b else .error .unicodeDecodeError

/-- The ASCII-range code points Python `str.strip()` removes (the code
paths embedded here only ever strip ASCII-decoded text). -/
def pyIsSpace (c : Nat) : Bool :=
  c = 32 || c = 9 || c = 10 || c = 11 || c = 12 || c = 13 ||
  c = 28 || c = 29 || c = 30 || c = 31

/-- Python `s.strip()`: drop whitespace from both ends. -/
def pyStrip (s : PyStr) : PyStr :=
  ((s.reverse.dropWhile pyIsSpace).reverse).dropWhile pyIsSpace

/-- Python `s.split(sep)` for a one-character separator. -/
def pySplit (sep : Nat) : PyStr → List PyStr
  | [] => [[]]
  | c :: cs =>
    let r := pySplit sep cs
    if c = sep then [] :: r
    else
      match r with
      | [] => [[c]]
      | h :: t => (c :: h) :: t

/-- The `struct` format `"Ns"`: truncate the bytes to `n` or right-pad
them with NUL bytes to exactly `n`. -/
def packFixed (n : Nat) (b : Bytes) : Bytes :=
  b.take n ++ List.replicate (n - b.length) 0

/-- Big-endian bytes of a 32-bit value. -/
def u32beBytes (n : Nat) : Bytes :=
  [n / 16777216 % 256, n / 65536 % 256, n / 256 % 256, n % 256]

/-- Big-endian bytes of a 16-bit value. -/
def u16beBytes (n : Nat) : Bytes :=
  [n / 256 % 256, n % 256]

/-- The `struct` format `"!I"`: range-check then emit 4 big-endian bytes. -/
def packU32 (n : Int) : Except PyErr Bytes :=
  if 0 ≤ n ∧ n < 4294967296 then .ok (u32beBytes n.toNat) else .error .structError

/-- The `struct` format `"!H"`: range-check then emit 2 big-endian bytes. -/
def packU16 (n : Int) : Except PyErr Bytes :=
  if 0 ≤ n ∧ n < 65536 then .ok (u16beBytes n.toNat) else .error .structError

/-- The `struct` format `"!h"`: range-check a signed 16-bit value then
emit its two's-complement big-endian bytes. -/
def packI16 (n : Int) : Except PyErr Bytes :=
  if -32768 ≤ n ∧ n < 32768 then .ok (u16beBytes (n % 65536).toNat)
  else .error .structError

/-- Python `struct.unpack("!H", b)[0]`: requires exactly 2 bytes,
otherwise `struct.error`. -/
def unpackU16 (b : Bytes) : Except PyErr Nat :=
  match b with
  | [hi, lo] => .ok (hi * 256 + lo)
  | _ => .error .structError

/-- Python `int.from_bytes(b, "big")` (an empty slice yields 0). -/
def intFromBytesBE (b : Bytes) : Nat :=
  b.foldl (fun acc d => acc * 256 + d) 0

/-- Decimal digit test on a code point. -/
def isDigit (c : Nat) : Bool :=
  48 ≤ c && c ≤ 57

/-- Value of a string of decimal digit code points. -/
def digitsToNat (l : PyStr) : Nat :=
  l.foldl (fun acc d => acc * 10 + (d - 48)) 0

/-- Python `int(s)` on a decimal string: optional surrounding whitespace,
an optional sign, then one or more digits; anything else raises
`ValueError` (underscore digit grouping is not modelled). -/
def pyInt (s : PyStr) : Except PyErr Int :=
  let t := pyStrip s
  match t with
  | 43 :: rest =>
    if rest ≠ [] ∧ rest.all isDigit then .ok (digitsToNat rest) else .error .valueError
  | 45 :: rest =>
    if rest ≠ [] ∧ rest.all isDigit then .ok (-(digitsToNat rest : Int))
    else .error .valueError
  | other =>
    if other ≠ [] ∧ other.all isDigit then .ok (digitsToNat other)
    else .error .valueError

/-- Decimal representation of a natural number as code points
(the `f"{sas_nonce}"` interpolation). -/
def natToPyStrAux : Nat → Nat → PyStr → PyStr
  | 0, _, acc => acc
  | fuel + 1, n, acc =>
    if n < 10 then (48 + n) :: acc
    else natToPyStrAux fuel (n / 10) ((48 + n % 10) :: acc)

/-- Decimal representation of a natural number as code points. -/
def natToPyStr (n : Nat) : PyStr :=
  natToPyStrAux (n + 1) n []

/-- The `MESSAGE_TYPES` dict of main.py (total on the keys the code uses). -/
def MESSAGE_TYPES (k : String) : Nat :=
  if k = "itr" then 1
  else if k = "itv" then 3
  else if k = "gtr" then 5
  else if k = "gtv" then 7
  else if k = "error" then 256
  else 0

/-- The `ERROR_CODES` dict of main.py; `none` models a missing key
(a lookup of it raises `KeyError`). -/
def ERROR_CODES (c : Nat) : Option String :=
  if c = 1 then some "INVALID_MESSAGE_CODE"
  else if c = 2 then some "INCORRECT_MESSAGE_LENGTH"
  else if c = 3 then some "INVALID_PARAMETER"
  else if c = 4 then some "INVALID_SINGLE_TOKEN"
  else if c = 5 then some "ASCII_DECODE_ERROR"
  else none

/-- Embeds `create_individual_token_request_message` (main.py 59-62):
`ljust` the id to 12 with spaces, ASCII-encode it, then
`struct.pack("!12sI", id, nonce)`. -/
def create_individual_token_request_message (user_id : PyStr) (nonce : Int) :
    Except PyErr Bytes := do
  let padded := ljust user_id 12 32
  let enc ← pyEncodeAscii padded
  let nonceBytes ← packU32 nonce
  pure (packFixed 12 enc ++ nonceBytes)

/-- Embeds `create_individual_token_validation_message` (main.py 64-70):
split the SAS text on `:` into exactly three parts, parse the nonce as an
int, ASCII-encode the padded id and the token, then
`struct.pack("!12sI64s", id, nonce, token)`. -/
def create_individual_token_validation_message (sas : PyStr) :
    Except PyErr Bytes := do
  let parts ←
    match pySplit 58 sas with
    | [a, b, c] => pure (a, b, c)
    | _ => throw PyErr.valueError
  let nonce ← pyInt parts.2.1
  let idEnc ← pyEncodeAscii (ljust parts.1 12 32)
  let tokEnc ← pyEncodeAscii parts.2.2
  let nonceBytes ← packU32 nonce
  pure (packFixed 12 idEnc ++ nonceBytes ++ packFixed 64 tokEnc)

/-- Embeds `create_group_token_request_message` (main.py 72-76):
`struct.pack("!H", N)` then append the validation body of every element
of `sas_list` (the whole list, regardless of `N`). -/
def create_group_token_request_message (N : Int) (sas_list : List PyStr) :
    Except PyErr Bytes := do
  let head ← packU16 N
  sas_list.foldlM
    (fun acc sas => do
      let b ← create_individual_token_validation_message sas
      pure (acc ++ b))
    head

/-- Embeds `create_group_token_validation_message` (main.py 78-86):
split on `+`; the last segment is the group token (ASCII-encoded), the
rest are SAS strings; emit `struct.pack("!h", len(sas_list))`, the
validation bodies, then `struct.pack("!64s", gas_token)`. -/
def create_group_token_validation_message (gas : PyStr) :
    Except PyErr Bytes := do
  let splitted := pySplit 43 gas
  let gasToken ← pyEncodeAscii (splitted.getLastD [])
  let sasList := splitted.dropLast
  let head ← packI16 (sasList.length : Int)
  let body ← sasList.foldlM
    (fun acc sas => do
      let b ← create_individual_token_validation_message sas
      pure (acc ++ b))
    head
  pure (body ++ packFixed 64 gasToken)

/-- Embeds `decode_sas` (main.py 118-123): slice 12 id bytes (ASCII-decode
and strip), 4 big-endian nonce bytes, 64 token bytes (ASCII-decode), and
build `f"{id}:{nonce}:{token}"`.  Python slices clamp, so short buffers
yield short fields rather than an error. -/
def decode_sas (data : Bytes) (idx : Nat) : Except PyErr PyStr := do
  let idStr ← pyDecodeAscii (pySlice data idx (idx + 12))
  let sasId := pyStrip idStr
  let sasNonce := intFromBytesBE (pySlice data (idx + 12) (idx + 16))
  let sasToken ← pyDecodeAscii (pySlice data (idx + 16) (idx + 80))
  pure (sasId ++ [58] ++ natToPyStr sasNonce ++ [58] ++ sasToken)

/-- A Python value returned by `parse_response`: the `{"error": name}`
dict, the `data[-1]` byte (an `int`), a decoded string, or `None`. -/
inductive PyValue where
  | errDict (name : String)
  | int (b : Nat)
  | str (s : PyStr)
  | none
deriving DecidableEq, Repr

/-- The loop of the `gtr`-reply branch of `parse_response` (main.py
135-138): decode `n` consecutive 80-byte SAS blocks starting at byte
offset `i`, each followed by `"+"`. -/
def decodeSasChain (data : Bytes) : Nat → Nat → Except PyErr PyStr
  | 0, _ => .ok []
  | n + 1, i => do
    let sas ← decode_sas data i
    let rest ← decodeSasChain data n (i + 80)
    pure (sas ++ [43] ++ rest)

/-- Embeds `parse_response` (main.py 125-143): unpack the 2-byte type
code, then dispatch: 256 is an error reply (unpack the 2-byte error code
and look it up in `ERROR_CODES`, `KeyError` on a missing key); codes 4
and 8 return the last byte; code 6 decodes `N` SAS blocks and the
trailing token; codes below 5 decode one SAS at offset 2; everything
else falls off the function and returns `None`. -/
def parse_response (data : Bytes) : Except PyErr PyValue := do
  let messageType ← unpackU16 (pySlice data 0 2)
  if messageType = MESSAGE_TYPES "error" then
    let errorCode ← unpackU16 (pySlice data 2 4)
    match ERROR_CODES errorCode with
    | some name => pure (PyValue.errDict name)
    | Option.none => throw PyErr.keyError
  else if messageType = MESSAGE_TYPES "itv" + 1 ∨
      messageType = MESSAGE_TYPES "gtv" + 1 then
    match data.getLast? with
    | some b => pure (PyValue.int b)
    | Option.none => throw PyErr.indexError
  else if messageType = MESSAGE_TYPES "gtr" + 1 then
    let n := intFromBytesBE (pySlice data 2 4)
    let sasText ← decodeSasChain data n 4
    let token ← pyDecodeAscii (pySliceFrom data (4 + 80 * n))
    pure (PyValue.str (sasText ++ token))
  else if messageType < 5 then
    let sas ← decode_sas data 2
    pure (PyValue.str sas)
  else
    pure PyValue.none

/-- The identifier-field encoder as inlined at main.py lines 60-61 and
67: `ljust` to width 12 with spaces, ASCII-encode, pack as `"12s"`. -/
def encode_fixed_ascii_12 (id : PyStr) : Except PyErr Bytes :=
  (pyEncodeAscii (ljust id 12 32)).map (packFixed 12)

/-- The identifier-field decoder as inlined at main.py line 119: take 12
bytes, ASCII-decode, `strip()`. -/
def decode_fixed_ascii_12 (b : Bytes) : Except PyErr PyStr :=
  (pyDecodeAscii (pySlice b 0 12)).map pyStrip

/-- The validation bodies of a list of SAS strings, in order — the value
accumulated by the loops of main.py lines 74-75 and 83-84. -/
def itvBodies : List PyStr → Except PyErr (List Bytes)
  | [] => .ok []
  | s :: rest => do
    let b ← create_individual_token_validation_message s
    let bs ← itvBodies rest
    pure (b :: bs)

/-- Example SAS text `"a:0:" ++ 64 * "x"`. -/
def sasExA : PyStr := pyOfString "a:0:" ++ List.replicate 64 120

/-- Example SAS text `"b:0:" ++ 64 * "x"`. -/
def sasExB : PyStr := pyOfString "b:0:" ++ List.replicate 64 120

/-- The 80-byte wire body of `sasExA`. -/
def sasExABody : Bytes :=
  (97 :: List.replicate 11 32) ++ [0, 0, 0, 0] ++ List.replicate 64 120

/-- The 80-byte wire body of `sasExB`. -/
def sasExBBody : Bytes :=
  (98 :: List.replicate 11 32) ++ [0, 0, 0, 0] ++ List.replicate 64 120

/-! ## Helper lemmas -/

theorem MESSAGE_TYPES_error : MESSAGE_TYPES "error" = 256 := by decide

theorem MESSAGE_TYPES_itv : MESSAGE_TYPES "itv" = 3 := by decide

theorem MESSAGE_TYPES_gtv : MESSAGE_TYPES "gtv" = 7 := by decide

theorem MESSAGE_TYPES_gtr : MESSAGE_TYPES "gtr" = 5 := by decide

theorem ljust_length_of_le {s : PyStr} {w : Nat} (f : Nat) (h : s.length ≤ w) :
    (ljust s w f).length = w := by
  simp [ljust]; omega

theorem ljust_all_lt128 {s : PyStr} {w f : Nat} (hf : f < 128)
    (h : s.all (fun c => c < 128) = true) :
    (ljust s w f).all (fun c => c < 128) = true := by
  simp only [ljust, List.all_append, h, Bool.true_and, List.all_eq_true]
  intro c hc
  have := List.eq_of_mem_replicate hc
  simpa [this] using hf

theorem packFixed_of_length_eq {n : Nat} {b : Bytes} (h : b.length = n) :
    packFixed n b = b := by
  simp [packFixed, h, List.take_of_length_le (Nat.le_of_eq h)]

theorem dropWhile_replicate_space (k : Nat) (l : PyStr) :
    List.dropWhile pyIsSpace (List.replicate k 32 ++ l) =
      List.dropWhile pyIsSpace l := by
  induction k with
  | zero => simp
  | succ m ih => simpa [List.replicate_succ, List.dropWhile] using ih

theorem pyStrip_append_spaces (s : PyStr) (k : Nat) :
    pyStrip (s ++ List.replicate k 32) = pyStrip s := by
  simp only [pyStrip, List.reverse_append, List.reverse_replicate,
    dropWhile_replicate_space]

theorem intFromBytesBE_u32beBytes {n : Nat} (h : n < 4294967296) :
    intFromBytesBE (u32beBytes n) = n := by
  simp only [intFromBytesBE, u32beBytes, List.foldl]
  omega

theorem pySplit_of_not_mem {sep : Nat} {s : PyStr} (h : sep ∉ s) :
    pySplit sep s = [s] := by
  induction s with
  | nil => rfl
  | cons c cs ih =>
    have hc : c ≠ sep := fun e => h (e ▸ List.mem_cons_self c cs)
    have hcs : sep ∉ cs := fun e => h (List.mem_cons_of_mem c e)
    simp [pySplit, hc, ih hcs]

theorem unpackU16_of_length_ne_two {b : Bytes} (h : b.length ≠ 2) :
    unpackU16 b = .error .structError := by
  match b, h with
  | [], _ => rfl
  | [_], _ => rfl
  | [_, _], h => exact absurd rfl h
  | _ :: _ :: _ :: _, _ => rfl

theorem all_pySlice {b : Bytes} {lo hi : Nat} (h : b.all (fun c => c < 128) = true) :
    (pySlice b lo hi).all (fun c => c < 128) = true := by
  simp only [List.all_eq_true] at h ⊢
  intro c hc
  exact h c (List.mem_of_mem_take (List.mem_of_mem_drop hc))

/-! ## Claims -/

/-- Claim C1: for every ASCII identifier of at most 12 characters and
every nonce in `[0, 2^32)`, the individual-token-request encoder
produces exactly the 16-byte body: the identifier right-padded with
ASCII spaces (32) to 12 bytes, followed by the nonce as a 4-byte
big-endian integer. -/
theorem claim_C1_itr_encoding (id : PyStr) (nonce : Int)
    (hascii : id.all (fun c => c < 128) = true)
    (hlen : id.length ≤ 12) (h0 : 0 ≤ nonce) (h32 : nonce < 4294967296) :
    create_individual_token_request_message id nonce =
      .ok ((id ++ List.replicate (12 - id.length) 32) ++ u32beBytes nonce.toNat) := by
  have hall : (ljust id 12 32).all (fun c => c < 128) = true :=
    ljust_all_lt128 (by omega) hascii
  have hlength : (ljust id 12 32).length = 12 := ljust_length_of_le 32 hlen
  simp only [create_individual_token_request_message, pyEncodeAscii, hall, if_true,
    packU32, bind, Except.bind]
  rw [if_pos ⟨h0, h32⟩]
  simp only [pure, Except.pure, packFixed_of_length_eq hlength]
  simp [ljust]

/-- Witness for C1: encoding id `"alice"` with nonce 42 yields the 12
bytes `"alice       "` followed by `00 00 00 2a`. -/
theorem claim_C1_witness :
    ((pyOfString "alice").all (fun c => c < 128) = true) ∧
    create_individual_token_request_message (pyOfString "alice") 42 =
      .ok [97, 108, 105, 99, 101, 32, 32, 32, 32, 32, 32, 32, 0, 0, 0, 42] :=
  ⟨by decide,
    (claim_C1_itr_encoding (pyOfString "alice") 42 (by decide) (by decide)
      (by decide) (by decide)).trans (by decide)⟩

/-- Counterexample to C2 as stated: the identifier `" "` (one space) is
ASCII and at most 12 characters, yet the width-12 fixed-ASCII decode of
its width-12 fixed-ASCII encode is the empty string, not `" "`: the
decoder strips with Python `strip()`, which removes leading as well as
trailing whitespace. -/
theorem claim_C2_counterexample :
    ([32] : PyStr).all (fun c => c < 128) = true ∧
    ([32] : PyStr).length ≤ 12 ∧
    (encode_fixed_ascii_12 [32]).bind decode_fixed_ascii_12 = .ok [] ∧
    ([] : PyStr) ≠ ([32] : PyStr) := by decide

/-- Claim C2 (amended): the width-12 fixed-ASCII round-trip is the
identity on ASCII identifiers of at most 12 characters that carry no
leading or trailing whitespace (`strip`-invariant); the big-endian u32
round-trip is the identity on 32-bit values; and encoding the SAS
`"alice:7:" ++ 64 * "x"` then decoding the resulting 80-byte block
reproduces that SAS text exactly. -/
theorem claim_C2_roundtrip_amended :
    (∀ id : PyStr, id.all (fun c => c < 128) = true → id.length ≤ 12 →
      pyStrip id = id →
      (encode_fixed_ascii_12 id).bind decode_fixed_ascii_12 = .ok id) ∧
    (∀ n : Nat, n < 4294967296 → intFromBytesBE (u32beBytes n) = n) ∧
    (create_individual_token_validation_message
        (pyOfString "alice:7:" ++ List.replicate 64 120)).bind
      (fun b => decode_sas b 0) =
      .ok (pyOfString "alice:7:" ++ List.replicate 64 120) := by
  refine ⟨?_, fun n h => intFromBytesBE_u32beBytes h, by decide⟩
  intro id hascii hlen hstrip
  have hall : (ljust id 12 32).all (fun c => c < 128) = true :=
    ljust_all_lt128 (by omega) hascii
  have hlength : (ljust id 12 32).length = 12 := ljust_length_of_le 32 hlen
  have henc : encode_fixed_ascii_12 id = .ok (ljust id 12 32) := by
    simp [encode_fixed_ascii_12, pyEncodeAscii, hall, Except.map,
      packFixed_of_length_eq hlength]
  have hslice : pySlice (ljust id 12 32) 0 12 = ljust id 12 32 := by
    simp [pySlice, List.take_of_length_le (le_of_eq hlength)]
  have hdecoded : pyStrip (ljust id 12 32) = id :=
    (pyStrip_append_spaces id _).trans hstrip
  have hdec : decode_fixed_ascii_12 (ljust id 12 32) = .ok id := by
    simp [decode_fixed_ascii_12, hslice, pyDecodeAscii, hall, Except.map, hdecoded]
  rw [henc]
  simpa [Except.bind] using hdec

/-- Witness for C2 (amended): instantiated at id `"bob"` and nonce 42. -/
theorem claim_C2_witness :
    (encode_fixed_ascii_12 (pyOfString "bob")).bind decode_fixed_ascii_12 =
      .ok (pyOfString "bob") ∧
    intFromBytesBE (u32beBytes 42) = 42 :=
  ⟨claim_C2_roundtrip_amended.1 (pyOfString "bob") (by decide) (by decide) (by decide),
   claim_C2_roundtrip_amended.2.1 42 (by decide)⟩

/-- Counterexample to C3 as stated: with count 1 and a two-element SAS
list, the encoder does not produce the 2-byte count followed by the one
validation body of the first element — the loop at main.py lines 74-75
appends a body for every element of the list, ignoring `N`. -/
theorem claim_C3_counterexample :
    create_group_token_request_message 1 [sasExA, sasExB] ≠
      (create_individual_token_validation_message sasExA).map
        (fun b => u16beBytes 1 ++ b) := by decide

/-- Claim C3 (amended): the group-token-request body is the 2-byte
unsigned big-endian count followed by the concatenation of the
validation bodies of ALL elements of `sas_list` (the count field is not
reconciled with the list length); when the list has exactly `n`
elements this coincides with the claim, and for `n = 2` with two SAS
the body is exactly 162 bytes and its first two bytes are `0x0002`. -/
theorem claim_C3_gtr_amended (N : Int) (sasList : List PyStr) (bs : List Bytes)
    (h0 : 0 ≤ N) (h16 : N < 65536)
    (hbs : itvBodies sasList = .ok bs) :
    create_group_token_request_message N sasList =
      .ok (u16beBytes N.toNat ++ bs.flatten) := by
  have hfold : ∀ (l : List PyStr) (cs : List Bytes) (acc : Bytes),
      itvBodies l = .ok cs →
      l.foldlM
        (fun acc sas => do
          let b ← create_individual_token_validation_message sas
          pure (acc ++ b))
        acc = .ok (acc ++ cs.flatten) := by
    intro l
    induction l with
    | nil =>
      intro cs acc h
      simp only [itvBodies, Except.ok.injEq] at h
      simp [← h, pure, Except.pure]
    | cons s rest ih =>
      intro cs acc h
      simp only [itvBodies, bind, Except.bind] at h
      cases hcs : create_individual_token_validation_message s with
      | error e => rw [hcs] at h; exact absurd h (by simp)
      | ok b =>
        rw [hcs] at h
        cases hrest : itvBodies rest with
        | error e => rw [hrest] at h; exact absurd h (by simp)
        | ok cs' =>
          rw [hrest] at h
          simp only [pure, Except.pure, Except.ok.injEq] at h
          subst h
          rw [List.foldlM_cons, hcs]
          have h3 : acc ++ (b :: cs').flatten = (acc ++ b) ++ cs'.flatten := by
            simp [List.append_assoc]
          rw [h3]
          exact ih cs' (acc ++ b) hrest
  simp only [create_group_token_request_message, packU16, bind, Except.bind]
  rw [if_pos ⟨h0, h16⟩]
  exact hfold sasList bs (u16beBytes N.toNat) hbs

/-- Witness for C3 (amended): a count of 2 with two SAS yields the
2-byte count `0x0002` followed by the two 80-byte bodies, 162 bytes in
total. -/
theorem claim_C3_witness :
    itvBodies [sasExA, sasExB] = .ok [sasExABody, sasExBBody] ∧
    create_group_token_request_message 2 [sasExA, sasExB] =
      .ok (u16beBytes 2 ++ [sasExABody, sasExBBody].flatten) ∧
    (u16beBytes 2 ++ [sasExABody, sasExBBody].flatten).length = 162 ∧
    pySlice (u16beBytes 2 ++ [sasExABody, sasExBBody].flatten) 0 2 = [0, 2] :=
  ⟨by decide,
   claim_C3_gtr_amended 2 [sasExA, sasExB] [sasExABody, sasExBBody]
     (by decide) (by decide) (by decide),
   by decide, by decide⟩

/-- Counterexample to C4 as stated: the 13-character identifier
`"abcdefghijklm"` does not make the encoder fail — `ljust` leaves it
unchanged and the `"12s"` pack silently truncates it to its first 12
bytes, so encoding succeeds. -/
theorem claim_C4_counterexample :
    12 < (pyOfString "abcdefghijklm").length ∧
    create_individual_token_request_message (pyOfString "abcdefghijklm") 0 =
      .ok (pyOfString "abcdefghijkl" ++ [0, 0, 0, 0]) := by decide

/-- Claim C4 (amended): for every ASCII identifier longer than 12
characters and every 32-bit nonce, individual-token-request encoding
does not fail: it silently truncates the identifier to its first 12
bytes and proceeds (there is no `InvalidIdentifier` failure; encoding
only fails on non-ASCII identifiers or an out-of-range nonce). -/
theorem claim_C4_truncation_amended (id : PyStr) (nonce : Int)
    (hascii : id.all (fun c => c < 128) = true) (hlen : 12 < id.length)
    (h0 : 0 ≤ nonce) (h32 : nonce < 4294967296) :
    create_individual_token_request_message id nonce =
      .ok (id.take 12 ++ u32beBytes nonce.toNat) := by
  have hlj : ljust id 12 32 = id := by
    simp [ljust, Nat.sub_eq_zero_of_le (le_of_lt hlen)]
  simp only [create_individual_token_request_message, hlj, pyEncodeAscii, hascii,
    if_true, packU32, bind, Except.bind]
  rw [if_pos ⟨h0, h32⟩]
  simp [packFixed, pure, Except.pure, Nat.sub_eq_zero_of_le (le_of_lt hlen)]

/-- Witness for C4 (amended): the 13-character identifier
`"abcdefghijklm"` with nonce 7 is truncated to 12 bytes and encoding
succeeds. -/
theorem claim_C4_witness :
    12 < (pyOfString "abcdefghijklm").length ∧
    create_individual_token_request_message (pyOfString "abcdefghijklm") 7 =
      .ok ((pyOfString "abcdefghijklm").take 12 ++ u32beBytes 7) :=
  ⟨by decide,
   claim_C4_truncation_amended (pyOfString "abcdefghijklm") 7 (by decide)
     (by decide) (by decide) (by decide)⟩

/-- Counterexample to C5 as stated: the empty buffer has fewer than 80
bytes remaining at offset 0, yet `decode_sas` does not fail — Python
slices clamp, and it returns the SAS text `":0:"` built from empty
fields and a zero nonce. -/
theorem claim_C5_counterexample :
    ([] : Bytes).length < 80 ∧
    decode_sas [] 0 = .ok (pyOfString ":0:") := by decide

/-- Claim C5 (amended): on every all-ASCII buffer and every offset,
`decode_sas` never fails — even when fewer than 80 bytes remain it
never signals a short buffer, returning instead a SAS value built from
the truncated (clamped) id, nonce and token slices. -/
theorem claim_C5_clamped_decode_amended (data : Bytes) (idx : Nat)
    (h : data.all (fun c => c < 128) = true) :
    decode_sas data idx =
      .ok (pyStrip (pySlice data idx (idx + 12)) ++ [58] ++
        natToPyStr (intFromBytesBE (pySlice data (idx + 12) (idx + 16))) ++ [58] ++
        pySlice data (idx + 16) (idx + 80)) := by
  simp [decode_sas, pyDecodeAscii, all_pySlice h, bind, Except.bind, pure, Except.pure]

/-- Witness for C5 (amended): a 2-byte buffer decodes without failure. -/
theorem claim_C5_witness :
    ([65, 66] : Bytes).all (fun c => c < 128) = true ∧
    decode_sas [65, 66] 0 =
      .ok (pyStrip (pySlice [65, 66] 0 12) ++ [58] ++
        natToPyStr (intFromBytesBE (pySlice [65, 66] 12 16)) ++ [58] ++
        pySlice [65, 66] 16 80) :=
  ⟨by decide, claim_C5_clamped_decode_amended [65, 66] 0 (by decide)⟩

/-- Claim C6: for every reply whose leading 2-byte code is 256, the
parser reads the next 2-byte big-endian error code and maps it through
`ERROR_CODES`; codes 1-5 map to the five named errors (in particular
bytes `01 00 00 03` decode to INVALID_PARAMETER), and every code
outside 1..5 makes decoding fail (`KeyError`) rather than being
silently accepted. -/
theorem claim_C6_error_reply_decode :
    (∀ (e₁ e₂ : Nat) (rest : Bytes),
      parse_response (1 :: 0 :: e₁ :: e₂ :: rest) =
        match ERROR_CODES (e₁ * 256 + e₂) with
        | some name => .ok (PyValue.errDict name)
        | Option.none => .error PyErr.keyError) ∧
    ERROR_CODES 1 = some "INVALID_MESSAGE_CODE" ∧
    ERROR_CODES 2 = some "INCORRECT_MESSAGE_LENGTH" ∧
    ERROR_CODES 3 = some "INVALID_PARAMETER" ∧
    ERROR_CODES 4 = some "INVALID_SINGLE_TOKEN" ∧
    ERROR_CODES 5 = some "ASCII_DECODE_ERROR" ∧
    parse_response [1, 0, 0, 3] = .ok (PyValue.errDict "INVALID_PARAMETER") ∧
    (∀ c : Nat, ¬(1 ≤ c ∧ c ≤ 5) → ERROR_CODES c = Option.none) := by
  refine ⟨?_, by decide, by decide, by decide, by decide, by decide, by decide, ?_⟩
  · intro e₁ e₂ rest
    have hs0 : pySlice (1 :: 0 :: e₁ :: e₂ :: rest) 0 2 = [1, 0] := by
      simp [pySlice]
    have hs2 : pySlice (1 :: 0 :: e₁ :: e₂ :: rest) 2 4 = [e₁, e₂] := by
      simp [pySlice, List.take_succ_cons, List.drop_succ_cons]
    simp only [parse_response, hs0, hs2, unpackU16, bind, Except.bind,
      MESSAGE_TYPES_error, if_true, pure, Except.pure]
    cases hE : ERROR_CODES (e₁ * 256 + e₂) <;> simp [hE, throw, throwThe,
      MonadExceptOf.throw]
  · intro c hc
    have h1 : c ≠ 1 := by omega
    have h2 : c ≠ 2 := by omega
    have h3 : c ≠ 3 := by omega
    have h4 : c ≠ 4 := by omega
    have h5 : c ≠ 5 := by omega
    simp [ERROR_CODES, h1, h2, h3, h4, h5]

/-- Witness for C6: the reply `01 00 00 09` carries the undefined error
code 9 and decoding fails with `KeyError`. -/
theorem claim_C6_witness :
    parse_response [1, 0, 0, 9] = .error PyErr.keyError ∧
    ERROR_CODES 9 = Option.none :=
  ⟨(claim_C6_error_reply_decode.1 0 9 []).trans (by decide),
   claim_C6_error_reply_decode.2.2.2.2.2.2.2 9 (by decide)⟩

/-- Counterexample to C7 as stated: the GAS text `"abc"` contains no
`"+"`, yet group-token-validation encoding does not fail — it produces
exactly the wire body the claim rules out: a zero SAS count followed by
the whole input (NUL-padded to 64 bytes) taken as the group token. -/
theorem claim_C7_counterexample :
    create_group_token_validation_message (pyOfString "abc") =
      .ok ([0, 0] ++ (pyOfString "abc" ++ List.replicate 61 0)) := by decide

/-- Claim C7 (amended): for every ASCII `gas_text` containing no `"+"`,
group-token-validation encoding does not fail: `split("+")` yields one
segment, taken entirely as the group token, and the encoder emits a
zero SAS count followed by that token packed to 64 bytes. -/
theorem claim_C7_no_plus_amended (gas : PyStr)
    (hascii : gas.all (fun c => c < 128) = true) (hplus : 43 ∉ gas) :
    create_group_token_validation_message gas =
      .ok ([0, 0] ++ packFixed 64 gas) := by
  have hsplit : pySplit 43 gas = [gas] := pySplit_of_not_mem hplus
  have henc : pyEncodeAscii gas = .ok gas := by simp [pyEncodeAscii, hascii]
  have hpack : packI16 ((0 : Nat) : Int) = .ok [0, 0] := by decide
  unfold create_group_token_validation_message
  rw [hsplit]
  dsimp only
  rw [show ([gas] : List PyStr).getLastD [] = gas from rfl,
    show List.dropLast ([gas] : List PyStr) = ([] : List PyStr) from rfl,
    henc, List.length_nil, hpack]
  rfl

/-- Witness for C7 (amended): the plus-free GAS text `"tok"`. -/
theorem claim_C7_witness :
    (43 ∉ pyOfString "tok") ∧
    create_group_token_validation_message (pyOfString "tok") =
      .ok ([0, 0] ++ packFixed 64 (pyOfString "tok")) :=
  ⟨by decide, claim_C7_no_plus_amended (pyOfString "tok") (by decide) (by decide)⟩

/-- Counterexample to C8 as stated: the SAS text `"a:1:xx"` has a
2-byte token, yet individual-token-validation encoding does not fail —
the `"64s"` pack silently NUL-pads the token to 64 bytes and encoding
succeeds. -/
theorem claim_C8_counterexample :
    create_individual_token_validation_message (pyOfString "a:1:xx") =
      .ok (((97 :: List.replicate 11 32) ++ [0, 0, 0, 1]) ++
        ([120, 120] ++ List.replicate 62 0)) := by decide

/-- Claim C8 (amended): a SAS text of the form `id:nonce:token` whose
ASCII token is not exactly 64 bytes does not make the encoder fail:
the token field is silently adjusted by the `"64s"` pack — truncated to
its first 64 bytes, or NUL-padded up to 64 — and encoding succeeds
(there is no `InvalidToken` failure). -/
theorem claim_C8_token_adjust_amended (sas uid nonceS token : PyStr) (n : Int)
    (hsplit : pySplit 58 sas = [uid, nonceS, token])
    (hn : pyInt nonceS = .ok n) (h0 : 0 ≤ n) (h32 : n < 4294967296)
    (hid : (ljust uid 12 32).all (fun c => c < 128) = true)
    (htok : token.all (fun c => c < 128) = true)
    (hlen : token.length ≠ 64) :
    create_individual_token_validation_message sas =
      .ok (packFixed 12 (ljust uid 12 32) ++ u32beBytes n.toNat ++
        (token.take 64 ++ List.replicate (64 - token.length) 0)) := by
  simp only [create_individual_token_validation_message, hsplit, pure, Except.pure,
    bind, Except.bind, hn, pyEncodeAscii, hid, htok, eq_self_iff_true, if_true,
    packU32]
  rw [if_pos ⟨h0, h32⟩]
  simp [packFixed, pure, Except.pure]

/-- Witness for C8 (amended): the SAS text `"a:1:xx"` with its 2-byte
token encodes to the padded 80-byte body. -/
theorem claim_C8_witness :
    pySplit 58 (pyOfString "a:1:xx") = [[97], [49], [120, 120]] ∧
    ([120, 120] : PyStr).length ≠ 64 ∧
    create_individual_token_validation_message (pyOfString "a:1:xx") =
      .ok (packFixed 12 (ljust [97] 12 32) ++ u32beBytes 1 ++
        (([120, 120] : PyStr).take 64 ++ List.replicate 62 0)) :=
  ⟨by decide, by decide,
   claim_C8_token_adjust_amended (pyOfString "a:1:xx") [97] [49] [120, 120] 1
     (by decide) (by decide) (by decide) (by decide) (by decide) (by decide)
     (by decide)⟩

/-- Counterexample to C9 as stated: the reply `00 09` carries type code
9, which has no defined decoding, and the parser returns Python `None`
(no decoded value) — there is no `UnknownMessageType` failure in the
code. -/
theorem claim_C9_counterexample :
    parse_response [0, 9] = .ok PyValue.none := by decide

/-- Claim C9 (amended): for every reply datagram whose leading 2-byte
type code has no defined decoding (not 256, not 4 or 8, not 6, and not
below 5), `parse_response` falls off the end of the dispatch and
returns Python `None` — no decoded value and no typed
`UnknownMessageType` failure. -/
theorem claim_C9_unknown_code_amended (b₁ b₂ : Nat) (rest : Bytes)
    (h256 : b₁ * 256 + b₂ ≠ 256) (h4 : b₁ * 256 + b₂ ≠ 4)
    (h8 : b₁ * 256 + b₂ ≠ 8) (h6 : b₁ * 256 + b₂ ≠ 6)
    (h5 : 5 ≤ b₁ * 256 + b₂) :
    parse_response (b₁ :: b₂ :: rest) = .ok PyValue.none := by
  have hs0 : pySlice (b₁ :: b₂ :: rest) 0 2 = [b₁, b₂] := by
    simp [pySlice]
  simp only [parse_response, hs0, unpackU16, bind, Except.bind,
    MESSAGE_TYPES_error, MESSAGE_TYPES_itv, MESSAGE_TYPES_gtv, MESSAGE_TYPES_gtr]
  rw [if_neg h256, if_neg (by rintro (h | h) <;> omega),
    if_neg (by omega : ¬b₁ * 256 + b₂ = 5 + 1),
    if_neg (by omega : ¬b₁ * 256 + b₂ < 5)]
  rfl

/-- Witness for C9 (amended): the undefined type code 7 yields `None`. -/
theorem claim_C9_witness :
    (5 : Nat) ≤ 0 * 256 + 7 ∧ parse_response [0, 7] = .ok PyValue.none :=
  ⟨by decide,
   claim_C9_unknown_code_amended 0 7 [] (by decide) (by decide) (by decide)
     (by decide) (by decide)⟩

/-- Claim C10: a reply shorter than 2 bytes makes `parse_response` fail
with a struct unpacking error, and an error reply (type code 256) with
fewer than 2 further bytes likewise fails when unpacking the error-code
field — no typed result is returned in either case. -/
theorem claim_C10_short_datagram :
    (∀ data : Bytes, data.length < 2 →
      parse_response data = .error PyErr.structError) ∧
    (∀ rest : Bytes, rest.length < 2 →
      parse_response (1 :: 0 :: rest) = .error PyErr.structError) := by
  constructor
  · intro data h
    have hs : pySlice data 0 2 = data := by
      simp [pySlice, List.take_of_length_le (by omega : data.length ≤ 2)]
    have hu : unpackU16 data = .error .structError :=
      unpackU16_of_length_ne_two (by omega)
    simp [parse_response, hs, hu, bind, Except.bind]
  · intro rest h
    have hs0 : pySlice (1 :: 0 :: rest) 0 2 = [1, 0] := by
      simp [pySlice]
    have hs2 : pySlice (1 :: 0 :: rest) 2 4 = rest.take 2 := by
      simp [pySlice, List.take_succ_cons, List.drop_succ_cons]
    have hu0 : unpackU16 [1, 0] = .ok 256 := rfl
    have hu : unpackU16 (rest.take 2) = .error .structError :=
      unpackU16_of_length_ne_two (by
        simp only [List.length_take]
        omega)
    simp only [parse_response, hs0, hs2, hu0, hu, bind, Except.bind,
      MESSAGE_TYPES_error, eq_self_iff_true, if_true]

/-- Witness for C10: the empty datagram and the 3-byte error reply
`01 00 05` both fail with a struct unpacking error. -/
theorem claim_C10_witness :
    parse_response [] = .error PyErr.structError ∧
    parse_response [1, 0, 5] = .error PyErr.structError :=
  ⟨claim_C10_short_datagram.1 [] (by decide),
   claim_C10_short_datagram.2 [5] (by decide)⟩

end TP0
